import Mathlib

/-!
Verification of the `subresources` page sub-resource collector.

The repository has two variants of `getAllSubResources`:
* a network-observed variant (`src/network.ts`) that classifies puppeteer
  response events via `mapResourceType`, de-duplicates them against a per-run
  seen-set, and optionally appends outbound link targets;
* a DOM-query variant (`index.ts`) that, after navigation, runs a fixed
  battery of DOM/CSSOM extraction passes and concatenates their results.

Both are shallowly embedded below: puppeteer objects become explicit record
inputs, the async-generator control flow (try/catch/finally with yields)
becomes an explicit event trace, and the browser-side URL machinery
(`new URL`) is a parameter of the definitions.
-/

namespace Subresources

/-- The resource categories of `src/types.ts` (the superset used across both
variants; the DOM variant never produces `link`). -/
inductive ResourceType where
  | stylesheet
  | script
  | image
  | favicon
  | video
  | audio
  | object
  | iframe
  | link
  | font
  | manifest
  deriving DecidableEq, Repr

/-- A discovered sub-resource: `interface Resource { type; url }`. -/
structure Resource where
  type : ResourceType
  url : String
  deriving DecidableEq, Repr

/-! ### String helpers mirroring the JavaScript string operations used. -/

/-- Boolean substring test on character lists (JS `String.prototype.includes`
and the truthiness of `url.match(/pat/)` for a literal alternative-free
pattern). -/
def listContainsSub (pat : List Char) : List Char → Bool
  | [] => pat.isPrefixOf []
  | c :: rest => pat.isPrefixOf (c :: rest) || listContainsSub pat rest

/-- `s` contains `pat` as a substring. -/
def strContains (s pat : String) : Bool :=
  listContainsSub pat.toList s.toList

/-- JS `s.startsWith(pat)`. -/
def strStartsWith (s pat : String) : Bool :=
  pat.toList.isPrefixOf s.toList

/-- Strip leading and trailing whitespace from a character list. -/
def trimChars (l : List Char) : List Char :=
  ((l.dropWhile Char.isWhitespace).reverse.dropWhile Char.isWhitespace).reverse

/-- JS `s.trim()`. -/
def jsTrim (s : String) : String :=
  (trimChars s.toList).asString

/-- Split a character list at every occurrence of `sep` (JS
`s.split(sep)` with a one-character separator: no separator yields the
whole string, and adjacent separators yield empty chunks). -/
def splitOnCharAux (sep : Char) : List Char → List Char → List (List Char)
  | [], acc => [acc.reverse]
  | c :: rest, acc =>
      if c = sep then acc.reverse :: splitOnCharAux sep rest []
      else splitOnCharAux sep rest (c :: acc)

/-- JS `s.split(sep)` for a one-character separator, as a `String`
operation. -/
def splitOnChar (sep : Char) (s : String) : List String :=
  (splitOnCharAux sep s.toList []).map List.asString

/-- JS `s.toLowerCase()` on the ASCII range. -/
def strToLower (s : String) : String :=
  (s.toList.map Char.toLower).asString

/-- `url.match(/favicon|apple-touch-icon/i)` truthiness: case-insensitive
substring search for either literal alternative. -/
def matchesFaviconPattern (url : String) : Bool :=
  strContains (strToLower url) "favicon"
    || strContains (strToLower url) "apple-touch-icon"

/-- First-match lookup of a header by exact name. -/
def headerValue (name : String) : List (String × String) → Option String
  | [] => none
  | (k, v) :: rest => if k = name then some v else headerValue name rest

/-! ### Puppeteer response model (the fields the code reads). -/

/-- The fields of a puppeteer `HTTPRequest` that the code reads:
`request.resourceType()` and the presence of `request.frame()?.parentFrame()`. -/
structure Request where
  resourceType : String
  hasParentFrame : Bool
  deriving DecidableEq, Repr

/-- The fields of a puppeteer `HTTPResponse` that the code reads. `headers`
models `response.headers()` (keys already lower-cased by puppeteer). -/
structure HTTPResponse where
  request : Request
  url : String
  headers : List (String × String)
  status : Nat
  deriving DecidableEq, Repr

/-- `response.headers()["content-type"] || ""`. -/
def contentTypeOf (response : HTTPResponse) : String :=
  (headerValue "content-type" response.headers).getD ""

/-- Modelled from puppeteer's documented `HTTPResponse.ok()`: true when the
status is 0 (cached/service-worker responses) or in the range 200-299. -/
def respOk (response : HTTPResponse) : Bool :=
  response.status == 0 || (200 ≤ response.status && response.status ≤ 299)

/-- `mapResourceType` from `src/network.ts`: classify an observed response
into a resource category, or `none` to drop it. -/
def mapResourceType (response : HTTPResponse) (mainFrameUrl : String) :
    Option ResourceType :=
  let request := response.request
  let type := request.resourceType
  let url := response.url
  if strStartsWith url "data:" then none
  else
    let contentType := contentTypeOf response
    if type = "stylesheet" then some .stylesheet
    else if type = "script" then some .script
    else if type = "image" then
      if matchesFaviconPattern url then some .favicon else some .image
    else if type = "media" then
      if strStartsWith contentType "audio/" then some .audio
      else if strStartsWith contentType "video/" then some .video
      else none
    else if type = "font" then some .font
    else if type = "manifest" then some .manifest
    else if type = "document" then
      if strStartsWith contentType "image/svg" then some .image
      else if request.hasParentFrame then some .iframe
      else none
    else if type = "other" then
      if strContains contentType "application/pdf"
          || strContains contentType "application/octet-stream" then some .object
      else none
    else none

/-! ### Run errors and events.

Both variants share the `try { … } catch (error) { caughtError = error }
finally { await browser.close(); if (caughtError) throw caughtError }`
shape. An error is either the navigation `Error` thrown by the body (we keep
its message) or an error surfaced by a browser-side evaluation. -/

/-- An error caught during a run: the navigation `Error` the body throws, or
an error raised inside a browser evaluation round-trip. -/
inductive RunError where
  | nav (msg : String)
  | eval (msg : String)
  deriving DecidableEq, Repr

/-- Message of the navigation error:
`` `Failed to navigate to ${url}${reason}` `` with
`` reason = response ? `. HTTP ${response.status()}` : "" ``. -/
def navErrorMsg (url : String) (response : Option HTTPResponse) : String :=
  "Failed to navigate to " ++ url ++
    (match response with
      | some r => ". HTTP " ++ toString r.status
      | none => "")

/-- Observable events of one run of the async generator, in order: the
browser launch, each `yield`ed resource, the `browser.close()` in `finally`,
and the re-raise of a caught error. -/
inductive Event where
  | launch
  | yieldRes (r : Resource)
  | close
  | raise (e : RunError)
  deriving DecidableEq, Repr

/-- Wrap a body outcome (yielded resources, then an optional caught error)
into the full generator trace: launch, the yields, the unconditional
`browser.close()`, then the re-raised error if one was caught. -/
def runTrace (body : List Resource × Option RunError) : List Event :=
  Event.launch :: body.1.map Event.yieldRes ++ [Event.close] ++
    (match body.2 with
      | some e => [Event.raise e]
      | none => [])

namespace Network

/-- Inputs of one run of the network-observed `getAllSubResources`:
the response events observed by the `page.on("response", …)` handler during
navigation (in arrival order), the outcome of `page.goto` (`Except` for a
rejected navigation promise, `none` for a null response), the `links` option
(`Partial<Options>`, absent ⇒ `false`), and the `href`s of the `a[href]`
anchors queried when `links` is set. -/
structure RunInput where
  responses : List HTTPResponse
  gotoResult : Except RunError (Option HTTPResponse)
  links : Bool
  anchors : List String
  deriving Repr

/-- One step of the `page.on("response", …)` handler over the state
`(seen, queue)`: classify, drop unclassified, drop already-seen URLs, else
record the URL as seen and append the resource to the queue. -/
def handleResponse (mainFrameUrl : String) (st : List String × List Resource)
    (response : HTTPResponse) : List String × List Resource :=
  match mapResourceType response mainFrameUrl with
  | none => st
  | some resourceType =>
      let resourceUrl := response.url
      if resourceUrl ∈ st.1 then st
      else (resourceUrl :: st.1, st.2 ++ [⟨resourceType, resourceUrl⟩])

/-- The `(seen, queue)` state after the handler has processed all observed
responses in arrival order. -/
def collectQueue (mainFrameUrl : String) (responses : List HTTPResponse) :
    List String × List Resource :=
  responses.foldl (handleResponse mainFrameUrl) ([], [])

/-- The links phase: for each anchor `href` in document order, skip it if
already in `seen`, else add it to `seen` and emit a `link` resource. Returns
the final seen-set and the emitted links. -/
def emitLinks (seen : List String) (anchors : List String) :
    List String × List Resource :=
  anchors.foldl
    (fun st u =>
      if u ∈ st.1 then st else (u :: st.1, st.2 ++ [⟨ResourceType.link, u⟩]))
    (seen, [])

/-- The `try` body of the network-observed `getAllSubResources`: the
resources it yields and the error it throws, if any. A rejected `goto` or a
missing/non-ok navigation response throws before anything is yielded; on
success the queued resources are yielded in arrival order, then — when
`links` is set — the deduplicated anchor targets. -/
def body (url : String) (inp : RunInput) : List Resource × Option RunError :=
  match inp.gotoResult with
  | .error e => ([], some e)
  | .ok navResponse =>
      let st := collectQueue url inp.responses
      if navResponse.elim true (fun r => !respOk r) then
        ([], some (.nav (navErrorMsg url navResponse)))
      else if inp.links then
        (st.2 ++ (emitLinks st.1 inp.anchors).2, none)
      else
        (st.2, none)

/-- The full event trace of one network-observed run that survived
`puppeteer.launch`. -/
def getAllSubResources (url : String) (inp : RunInput) : List Event :=
  runTrace (body url inp)

end Network

/-! ### DOM-query variant (`index.ts`).

The browser-side objects the evaluation callbacks read are modelled as
records; `new URL(u, base)` is a parameter `newURL` returning `none` when the
constructor would throw, and the one-argument `new URL(u)` is `newURL1`. -/

/-- Result of a successful `new URL(…)` construction: the fields the code
reads. -/
structure JsURL where
  href : String
  protocol : String
  deriving DecidableEq, Repr

/-- A CSSOM rule, carrying the fields each `instanceof` branch reads:
`CSSImportRule.href`, `CSSStyleRule.style.backgroundImage` and
`.style.content`, `CSSFontFaceRule.style.src` (empty string when absent,
matching JS falsiness). -/
inductive CSSRule where
  | importRule (href : String)
  | styleRule (backgroundImage : String) (content : String)
  | fontFaceRule (src : String)
  | otherRule
  deriving DecidableEq, Repr

/-- A `document.styleSheets` entry: `href` is `""` for an inline stylesheet
(JS `stylesheet.href || pageURL` treats both `null` and `""` as falsy);
`accessible` is whether reading `stylesheet.cssRules` succeeds (it throws for
cross-origin stylesheets). -/
structure StyleSheet where
  href : String
  accessible : Bool
  rules : List CSSRule
  deriving DecidableEq, Repr

/-- `stylesheet.href || pageURL`. -/
def StyleSheet.baseURL (sheet : StyleSheet) (pageURL : String) : String :=
  if sheet.href = "" then pageURL else sheet.href

/-- JS `s.split(/,\s+/)` on a character list: split at each occurrence of a
comma followed by a nonempty whitespace run (`skipping` marks that the run
of a just-matched separator is still being consumed, mirroring the greedy
`\s+`). -/
def splitCommaWsAux : List Char → List Char → Bool → List (List Char)
  | [], acc, _ => [acc.reverse]
  | c :: rest, acc, skipping =>
      if skipping && c.isWhitespace then
        splitCommaWsAux rest acc true
      else if c = ',' && (rest.head?.elim false Char.isWhitespace) then
        acc.reverse :: splitCommaWsAux rest [] true
      else
        splitCommaWsAux rest (c :: acc) false

/-- JS `s.split(/,\s+/)` as a `String` operation. -/
def splitCommaWs (s : String) : List String :=
  (splitCommaWsAux s.toList [] false).map List.asString

/-- JS `part.trim().split(/\s+/, 2)[0]`: the characters of the trimmed
candidate before its first whitespace. -/
def urlPortion (part : String) : String :=
  ((trimChars part.toList).takeWhile (fun c => !c.isWhitespace)).asString

/-- First match of the capture group of `/url\("([^)]+)"\)/`: scanning left
to right, a literal `url("`, then the maximal run of non-`)` characters —
which must be at least two long and end in `"` — then `)`; the capture is
that run without its final quote. `none` when no position matches. -/
def matchUrlCapture : List Char → Option String
  | [] => none
  | c :: rest =>
      if "url(\"".toList.isPrefixOf (c :: rest) then
        let tail := (c :: rest).drop 5
        let body := tail.takeWhile (fun ch => ch ≠ ')')
        if 2 ≤ body.length && body.getLast? == some '"'
            && (tail.drop body.length).head? == some ')' then
          some body.dropLast.asString
        else
          matchUrlCapture rest
      else
        matchUrlCapture rest

namespace Dom

/-- Tags distinguishing the `instanceof` checks of the media pass. -/
inductive Tag where
  | img
  | video
  | source
  | audio
  | other
  deriving DecidableEq, Repr

/-- A DOM element as seen by the media pass: its tag, its `src` attribute
(`some` when present, carrying the resolved `elem.src` property value), and
its parent element's tag. -/
structure DomElem where
  tag : Tag
  src : Option String
  parentTag : Tag
  deriving DecidableEq, Repr

/-- Whether an element matches the media-pass selector
`img[src], video > source[src], video[src], audio[src]`. -/
def matchesMediaSelector (e : DomElem) : Bool :=
  e.src.isSome &&
    (e.tag == .img || (e.tag == .source && e.parentTag == .video)
      || e.tag == .video || e.tag == .audio)

/-- The classification body of the media `$$eval` callback for one matched
element: `instanceof` dispatch on image/video/source, with the explicit
`throw new Error("Reached unreachable code.")` fallback. -/
def classifyMediaElem (e : DomElem) : Except String Resource :=
  let url := e.src.getD ""
  match e.tag with
  | .img => .ok ⟨ResourceType.image, url⟩
  | .video => .ok ⟨ResourceType.video, url⟩
  | .source =>
      if e.parentTag = .video then .ok ⟨ResourceType.video, url⟩
      else .ok ⟨ResourceType.audio, url⟩
  | _ => .error "Reached unreachable code."

/-- The page state the DOM-query battery reads, each field holding the
matched elements of one selector in document order (attributes reflected as
the already-resolved DOM properties the callbacks read). -/
structure DomPage where
  stylesheetLinks : List String
  sheets : List StyleSheet
  scripts : List String
  mediaElems : List DomElem
  srcsetVals : List String
  favicons : List String
  iframes : List String
  manifest : Option String
  objectDatas : List String
  deriving Repr

section Passes

variable (newURL : String → String → Option JsURL) (newURL1 : String → Option JsURL)

/-- Imperative accumulation `out = out.concat(f a)` over a list inside a
browser-evaluation callback, where `f` may throw: the concatenation of the
per-item result lists, or the first thrown error (which rejects the whole
evaluation). -/
def collectE {α β : Type} (f : α → Except String (List β)) :
    List α → Except String (List β)
  | [] => .ok []
  | a :: as => do
      let ys ← f a
      let rest ← collectE f as
      pure (ys ++ rest)

/-- Imperative `out.push(f a)` over a list where `f` may throw: the list of
per-item results, or the first thrown error. -/
def mapE {α β : Type} (f : α → Except String β) :
    List α → Except String (List β)
  | [] => .ok []
  | a :: as => do
      let b ← f a
      let bs ← mapE f as
      pure (b :: bs)

/-- `s.split(",").map(s => s.match(/url\("([^)]+)"\)/)).map(s => s ?
s[1].trim() : undefined).filter(s => !!s)`: the trimmed `url("…")` reference
of each comma-separated chunk, dropping chunks without one and empty
references. -/
def cssUrlRefs (s : String) : List String :=
  ((splitOnChar ',' s).filterMap
    (fun part => (matchUrlCapture part.toList).map jsTrim)).filter
    (fun u => u ≠ "")

/-- `getStyleSheets`: one stylesheet resource per `link[rel~="stylesheet"]`
element's `href`. -/
def getStyleSheets (stylesheetLinks : List String) :
    Except String (List Resource) :=
  .ok (stylesheetLinks.map (fun href => ⟨ResourceType.stylesheet, href⟩))

/-- `getImportedStyleSheets`: for every stylesheet whose `cssRules` is
readable, each `CSSImportRule.href` resolved against the stylesheet's own
URL (falling back to the page URL), as a stylesheet resource; stylesheets
whose rules cannot be read are skipped by the `try { … } catch { continue }`. -/
def getImportedStyleSheets (pageURL : String) (sheets : List StyleSheet) :
    Except String (List Resource) :=
  collectE
    (fun sheet =>
      if sheet.accessible then
        collectE
          (fun rule =>
            match rule with
            | .importRule href =>
                match newURL href (sheet.baseURL pageURL) with
                | some u => .ok [⟨ResourceType.stylesheet, u.href⟩]
                | none => .error "Failed to construct URL"
            | _ => .ok [])
          sheet.rules
      else .ok [])
    sheets

/-- `getScripts`: one script resource per `script[src]` element's `src`. -/
def getScripts (scripts : List String) : Except String (List Resource) :=
  .ok (scripts.map (fun src => ⟨ResourceType.script, src⟩))

/-- The first `$$eval` of `getMedia`: classify every element matching
`img[src], video > source[src], video[src], audio[src]`, in document order. -/
def mediaSources (mediaElems : List DomElem) : Except String (List Resource) :=
  mapE classifyMediaElem (mediaElems.filter matchesMediaSelector)

/-- The candidate list of one `srcset` value:
`srcset.trim().split(/,\s+/).filter(s => s.trim())`. -/
def srcsetCandidates (srcset : String) : List String :=
  (splitCommaWs (jsTrim srcset)).filter (fun s => jsTrim s ≠ "")

/-- The second `$$eval` of `getMedia`: for each `srcset` value of an
`img[srcset]` or `picture > source[srcset]` element, resolve the
pre-whitespace portion of each candidate against the page URL as an image
resource. -/
def imageSrcSets (pageURL : String) (srcsetVals : List String) :
    Except String (List Resource) :=
  collectE
    (fun srcset =>
      mapE
        (fun part =>
          match newURL (urlPortion part) pageURL with
          | some u => .ok (⟨ResourceType.image, u.href⟩ : Resource)
          | none => .error "Failed to construct URL")
        (srcsetCandidates srcset))
    srcsetVals

/-- `getMedia`: the media-element pass followed by the `srcset` pass. -/
def getMedia (pageURL : String) (mediaElems : List DomElem)
    (srcsetVals : List String) : Except String (List Resource) := do
  let ms ← mediaSources mediaElems
  let ss ← imageSrcSets newURL pageURL srcsetVals
  pure (ms ++ ss)

/-- The URL references one CSS rule contributes to `getStyleSheetImages`:
the `url("…")` references of a style rule's nonempty `background-image`,
else — when the rule instead has a nonempty `content` — its first `url("…")`
reference unless empty after trimming or resolving to the `data:` scheme. -/
def styleRuleImageUrls (baseURL : String) : CSSRule → Except String (List String)
  | .styleRule backgroundImage content =>
      if backgroundImage ≠ "" then
        mapE
          (fun s =>
            match newURL s baseURL with
            | some u => .ok u.href
            | none => .error "Failed to construct URL")
          (cssUrlRefs backgroundImage)
      else if content ≠ "" then
        match matchUrlCapture content.toList with
        | none => .ok []
        | some m =>
            let url := jsTrim m
            if url = "" then .ok []
            else
              match newURL url baseURL with
              | some u =>
                  if u.protocol = "data:" then .ok [] else .ok [u.href]
              | none => .error "Failed to construct URL"
      else .ok []
  | _ => .ok []

/-- `getStyleSheetImages`: the style-rule URL references of every readable
stylesheet, resolved against the stylesheet's base, as image resources. -/
def getStyleSheetImages (pageURL : String) (sheets : List StyleSheet) :
    Except String (List Resource) := do
  let urls ←
    collectE
      (fun sheet =>
        if sheet.accessible then
          collectE (styleRuleImageUrls newURL (sheet.baseURL pageURL)) sheet.rules
        else .ok [])
      sheets
  pure (urls.map (fun url => ⟨ResourceType.image, url⟩))

/-- The URL references one CSS rule contributes to `getFonts`: the
`url("…")` references of a `@font-face` rule's nonempty `src`. -/
def fontFaceUrls (baseURL : String) : CSSRule → Except String (List String)
  | .fontFaceRule src =>
      if src ≠ "" then
        mapE
          (fun s =>
            match newURL s baseURL with
            | some u => .ok u.href
            | none => .error "Failed to construct URL")
          (cssUrlRefs src)
      else .ok []
  | _ => .ok []

/-- `getFonts`: the `@font-face` `src` URL references of every readable
stylesheet, resolved against the stylesheet's base, as font resources. -/
def getFonts (pageURL : String) (sheets : List StyleSheet) :
    Except String (List Resource) := do
  let urls ←
    collectE
      (fun sheet =>
        if sheet.accessible then
          collectE (fontFaceUrls newURL (sheet.baseURL pageURL)) sheet.rules
        else .ok [])
      sheets
  pure (urls.map (fun url => ⟨ResourceType.font, url⟩))

/-- `getFavicons`: every `link[rel~='icon'], link[rel~='apple-touch-icon']`
element with a nonempty `href` whose URL scheme is not `data:`, as a favicon
resource carrying the element's `href`. -/
def getFavicons (favicons : List String) : Except String (List Resource) :=
  collectE
    (fun href =>
      if href = "" then .ok []
      else
        match newURL1 href with
        | some u =>
            if u.protocol = "data:" then .ok []
            else .ok [⟨ResourceType.favicon, href⟩]
        | none => .error "Failed to construct URL")
    favicons

/-- `getIframes`: one iframe resource per `iframe[src]` element's `src`. -/
def getIframes (iframes : List String) : Except String (List Resource) :=
  .ok (iframes.map (fun src => ⟨ResourceType.iframe, src⟩))

/-- `getMiscResources`: the manifest link's `href` when one exists (its
absence is swallowed by `.catch(() => null)`), followed by one object
resource per `object[data]` element whose `data` parses against the page URL
(a throwing `new URL` is swallowed per element by `try { … } catch {}`). -/
def getMiscResources (pageURL : String) (manifest : Option String)
    (objectDatas : List String) : Except String (List Resource) :=
  let manifestResources : List Resource :=
    match manifest with
    | some href => [⟨ResourceType.manifest, href⟩]
    | none => []
  let dataObjects : List Resource :=
    objectDatas.filterMap
      (fun data =>
        (newURL data pageURL).map (fun u => ⟨ResourceType.object, u.href⟩))
  .ok (manifestResources ++ dataObjects)

/-- Lift the result of one browser evaluation into a run outcome: a thrown
evaluation error becomes an `eval` run error. -/
def liftEval {α : Type} : Except String α → Except RunError α
  | .ok a => .ok a
  | .error m => .error (.eval m)

/-- The fixed battery of extraction passes, in the order the generator body
`yield*`s them. -/
def passes (pageURL : String) (page : DomPage) :
    List (Except RunError (List Resource)) :=
  [getStyleSheets page.stylesheetLinks,
   getImportedStyleSheets newURL pageURL page.sheets,
   getScripts page.scripts,
   getMedia newURL pageURL page.mediaElems page.srcsetVals,
   getStyleSheetImages newURL pageURL page.sheets,
   getFonts newURL pageURL page.sheets,
   getFavicons newURL1 page.favicons,
   getIframes page.iframes,
   getMiscResources newURL pageURL page.manifest page.objectDatas].map
    liftEval

end Passes

/-- Run the passes sequentially: each successful pass's resources are
yielded before the next runs; the first failing pass stops the battery with
its error, keeping the resources already yielded. -/
def runPasses : List (Except RunError (List Resource)) →
    List Resource × Option RunError
  | [] => ([], none)
  | .error e :: _ => ([], some e)
  | .ok rs :: rest =>
      let tail := runPasses rest
      (rs ++ tail.1, tail.2)

/-- Inputs of one run of the DOM-query `getAllSubResources`: the outcome of
`page.goto`, the page URL reported by `page.url()` after navigation, and the
document state the passes query. -/
structure RunInput where
  gotoResult : Except RunError (Option HTTPResponse)
  pageURL : String
  page : DomPage
  deriving Repr

/-- The `try` body of the DOM-query `getAllSubResources`: a rejected `goto`
or a missing/non-ok navigation response throws before anything is yielded;
on success the nine passes run in order, yielding as they go, until all
complete or one fails. -/
def body (newURL : String → String → Option JsURL)
    (newURL1 : String → Option JsURL) (url : String) (inp : RunInput) :
    List Resource × Option RunError :=
  match inp.gotoResult with
  | .error e => ([], some e)
  | .ok navResponse =>
      if navResponse.elim true (fun r => !respOk r) then
        ([], some (.nav (navErrorMsg url navResponse)))
      else
        runPasses (passes newURL newURL1 inp.pageURL inp.page)

/-- The full event trace of one DOM-query run that survived
`puppeteer.launch`. -/
def getAllSubResources (newURL : String → String → Option JsURL)
    (newURL1 : String → Option JsURL) (url : String) (inp : RunInput) :
    List Event :=
  runTrace (body newURL newURL1 url inp)

end Dom

/-! ## Helper lemmas -/

set_option maxHeartbeats 1000000 in
/-- `mapResourceType` never classifies a response as `link`: `link`
resources only come from the anchor-query phase. -/
theorem mapResourceType_ne_link (response : HTTPResponse) (mainFrameUrl : String) :
    mapResourceType response mainFrameUrl ≠ some ResourceType.link := by
  unfold mapResourceType
  dsimp only
  split_ifs <;> simp

/-- A classified response's URL does not carry the `data:` scheme. -/
theorem mapResourceType_not_data (response : HTTPResponse) (mainFrameUrl : String)
    (t : ResourceType) (h : mapResourceType response mainFrameUrl = some t) :
    strStartsWith response.url "data:" = false := by
  by_contra hc
  rw [Bool.not_eq_false] at hc
  unfold mapResourceType at h
  dsimp only at h
  rw [hc] at h
  simp at h

/-- `Except` bind on a success reduces to the continuation. -/
theorem except_ok_bind {ε α β : Type} (a : α) (f : α → Except ε β) :
    (Except.ok a : Except ε α) >>= f = f a := rfl

/-- `Except` bind on an error short-circuits. -/
theorem except_error_bind {ε α β : Type} (e : ε) (f : α → Except ε β) :
    (Except.error e : Except ε α) >>= f = Except.error e := rfl

/-- `pure` in `Except` is `ok`. -/
theorem except_pure_eq {ε α : Type} (a : α) :
    (pure a : Except ε α) = Except.ok a := rfl

/-- `collectE` over a single element is that element's contribution. -/
theorem collectE_singleton {α β : Type} (f : α → Except String (List β)) (a : α) :
    Dom.collectE f [a] = f a := by
  cases hfa : f a <;>
    simp [Dom.collectE, hfa, except_ok_bind, except_error_bind, except_pure_eq]

/-- `mapE` over a two-element list with two known successes. -/
theorem mapE_pair {α β : Type} (f : α → Except String β) (a₁ a₂ : α)
    (b₁ b₂ : β) (h₁ : f a₁ = .ok b₁) (h₂ : f a₂ = .ok b₂) :
    Dom.mapE f [a₁, a₂] = .ok [b₁, b₂] := by
  simp [Dom.mapE, h₁, h₂, except_ok_bind, except_pure_eq]

/-! ## Claim theorems -/

/-- C10: `mapResourceType` is a deterministic function of the response's
request category, URL, content-type header, and parent-frame presence; in
particular the result never depends on the `mainFrameUrl` argument. -/
theorem mapResourceType_deterministic (r₁ r₂ : HTTPResponse) (m₁ m₂ : String)
    (htype : r₁.request.resourceType = r₂.request.resourceType)
    (hurl : r₁.url = r₂.url)
    (hct : contentTypeOf r₁ = contentTypeOf r₂)
    (hframe : r₁.request.hasParentFrame = r₂.request.hasParentFrame) :
    mapResourceType r₁ m₁ = mapResourceType r₂ m₂ := by
  unfold mapResourceType
  dsimp only
  rw [htype, hurl, hct, hframe]

/-- Witness for C10: two responses agreeing on the four classified fields
but differing in status, extra headers and `mainFrameUrl` classify alike. -/
theorem mapResourceType_deterministic_witness :
    mapResourceType ⟨⟨"script", false⟩, "http://example.com/a.js", [], 200⟩
        "http://example.com/" =
      mapResourceType
        ⟨⟨"script", false⟩, "http://example.com/a.js",
          [("x-extra", "1"), ("content-type", "")], 404⟩
        "http://other.example/" :=
  mapResourceType_deterministic _ _ _ _ rfl rfl rfl rfl

/-- C8 (amended): for a response of request category `media` whose URL does
not carry the `data:` scheme, `mapResourceType` returns `audio` when the
content-type starts with `audio/`, `video` when it starts with `video/`,
and `none` otherwise. -/
theorem media_content_type_classification (response : HTTPResponse)
    (mainFrameUrl : String)
    (hmedia : response.request.resourceType = "media")
    (hdata : strStartsWith response.url "data:" = false) :
    mapResourceType response mainFrameUrl =
      (if strStartsWith (contentTypeOf response) "audio/" then
        some ResourceType.audio
      else if strStartsWith (contentTypeOf response) "video/" then
        some ResourceType.video
      else none) := by
  unfold mapResourceType
  dsimp only
  rw [hmedia, hdata]
  simp

/-- Witness for C8: a media response with an `audio/mpeg` content type on a
non-`data:` URL classifies as `audio`. -/
theorem media_content_type_classification_witness :
    mapResourceType
        ⟨⟨"media", false⟩, "http://example.com/track.mp3",
          [("content-type", "audio/mpeg")], 200⟩
        "http://example.com/" = some ResourceType.audio :=
  (media_content_type_classification
      ⟨⟨"media", false⟩, "http://example.com/track.mp3",
        [("content-type", "audio/mpeg")], 200⟩
      "http://example.com/" rfl rfl).trans (by decide)

/-- Counterexample for C8 as stated: a media response whose content-type
starts with `audio/` but whose URL carries the `data:` scheme is dropped
(`none`), not classified as `audio`. -/
theorem media_data_url_not_audio :
    mapResourceType
        ⟨⟨"media", false⟩, "data:audio/mpeg;base64,AA",
          [("content-type", "audio/mpeg")], 200⟩
        "http://example.com/" = none
      ∧ strStartsWith
          (contentTypeOf
            ⟨⟨"media", false⟩, "data:audio/mpeg;base64,AA",
              [("content-type", "audio/mpeg")], 200⟩)
          "audio/" = true := by
  decide

/-- C6 (code bug): a `<source>` element whose parent is an `<audio>` element
is excluded by the media-pass selector, so it yields nothing — although the
callback's own `else` branch would classify exactly such an element as
`audio`; moreover an `<audio src>` element, which the selector does match,
hits the `throw new Error("Reached unreachable code.")` branch. -/
theorem media_source_in_audio_mismatch :
    Dom.matchesMediaSelector
        ⟨Dom.Tag.source, some "http://example.com/track.mp3", Dom.Tag.audio⟩
        = false
      ∧ Dom.mediaSources
          [⟨Dom.Tag.source, some "http://example.com/track.mp3", Dom.Tag.audio⟩]
          = .ok []
      ∧ Dom.classifyMediaElem
          ⟨Dom.Tag.source, some "http://example.com/track.mp3", Dom.Tag.audio⟩
          = .ok ⟨ResourceType.audio, "http://example.com/track.mp3"⟩
      ∧ Dom.mediaSources
          [⟨Dom.Tag.audio, some "http://example.com/song.mp3", Dom.Tag.other⟩]
          = .error "Reached unreachable code." :=
  ⟨rfl, rfl, rfl, rfl⟩

/-- C7 (amended): the `srcset` pass splits on commas followed by whitespace,
takes the pre-whitespace portion of each candidate, resolves it against the
page URL and emits one image resource per candidate; in particular
`srcset="x1.png 1x, x2.png 2x"` yields the two image resources for
`x1.png` and `x2.png`. -/
theorem srcset_comma_space_split (newURL : String → String → Option JsURL)
    (pageURL : String) (u1 u2 : JsURL)
    (h1 : newURL "x1.png" pageURL = some u1)
    (h2 : newURL "x2.png" pageURL = some u2) :
    Dom.imageSrcSets newURL pageURL ["x1.png 1x, x2.png 2x"]
      = .ok [⟨ResourceType.image, u1.href⟩, ⟨ResourceType.image, u2.href⟩] := by
  have p1 : urlPortion "x1.png 1x" = "x1.png" := rfl
  have p2 : urlPortion "x2.png 2x" = "x2.png" := rfl
  have step := collectE_singleton
    (fun srcset =>
      Dom.mapE
        (fun part =>
          match newURL (urlPortion part) pageURL with
          | some u => Except.ok (⟨ResourceType.image, u.href⟩ : Resource)
          | none => Except.error "Failed to construct URL")
        (Dom.srcsetCandidates srcset))
    "x1.png 1x, x2.png 2x"
  have cand : Dom.srcsetCandidates "x1.png 1x, x2.png 2x"
      = ["x1.png 1x", "x2.png 2x"] := rfl
  rw [cand] at step
  refine step.trans (mapE_pair _ _ _ _ _ ?_ ?_)
  · rw [p1, h1]
  · rw [p2, h2]

/-- Witness for C7: with resolution against `http://example.com/`, the two
candidates yield two distinct image resources. -/
theorem srcset_comma_space_split_witness :
    Dom.imageSrcSets (fun s b => some ⟨b ++ s, "http:"⟩) "http://example.com/"
        ["x1.png 1x, x2.png 2x"]
      = .ok [⟨ResourceType.image, "http://example.com/x1.png"⟩,
             ⟨ResourceType.image, "http://example.com/x2.png"⟩] :=
  srcset_comma_space_split (fun s b => some ⟨b ++ s, "http:"⟩)
    "http://example.com/" _ _ rfl rfl

/-- Counterexample for C7 as stated: `srcset="x1.png 1x,x2.png 2x"` (no
whitespace after the comma) is NOT split into its two comma-separated
candidates — the code splits on `/,\s+/` — so only one image resource, for
`x1.png`, is emitted. -/
theorem srcset_comma_no_space_single :
    Dom.imageSrcSets (fun s b => some ⟨b ++ s, "http:"⟩) "http://example.com/"
        ["x1.png 1x,x2.png 2x"]
      = .ok [⟨ResourceType.image, "http://example.com/x1.png"⟩] := rfl

/-- `yieldRes` events are never `close`. -/
theorem count_close_map_yieldRes (rs : List Resource) :
    (rs.map Event.yieldRes).count Event.close = 0 := by
  induction rs with
  | nil => rfl
  | cons r rest ih => simpa [List.count_cons] using ih

/-- Every run trace contains exactly one `browser.close()` event. -/
theorem runTrace_count_close (b : List Resource × Option RunError) :
    (runTrace b).count Event.close = 1 := by
  obtain ⟨rs, err⟩ := b
  cases err <;>
    simp [runTrace, List.count_append, List.count_cons,
      count_close_map_yieldRes]

/-- If a run trace re-raises an error, it is the error the body caught, and
the raise is the last event, directly after the `close`. -/
theorem runTrace_raise (b : List Resource × Option RunError) (e : RunError)
    (h : Event.raise e ∈ runTrace b) :
    b.2 = some e ∧
      runTrace b =
        (Event.launch :: b.1.map Event.yieldRes ++ [Event.close])
          ++ [Event.raise e] := by
  obtain ⟨rs, err⟩ := b
  cases err with
  | none => simp [runTrace] at h
  | some e₂ =>
      have he : e = e₂ := by simp [runTrace] at h; exact h
      subst he
      exact ⟨rfl, by simp [runTrace]⟩

/-- Errors surfaced by the DOM pass battery are evaluation errors, never the
navigation error. -/
theorem runPasses_liftEval_no_nav (qs : List (Except String (List Resource)))
    (m : String) :
    (Dom.runPasses (qs.map Dom.liftEval)).2 ≠ some (RunError.nav m) := by
  induction qs with
  | nil => simp [Dom.runPasses]
  | cons q rest ih =>
      cases q with
      | error e => simp [Dom.runPasses, Dom.liftEval]
      | ok rs => simpa [Dom.runPasses, Dom.liftEval] using ih

/-- The navigation-failure test of both variants, as a proposition. -/
theorem navFailed_iff (navResp : Option HTTPResponse) :
    navResp.elim true (fun r => !respOk r) = true ↔
      (navResp = none ∨ ∃ r, navResp = some r ∧ respOk r = false) := by
  cases navResp <;> simp

/-- C4: in both variants, every run that survives the browser launch closes
the browser exactly once, and when an error was caught mid-run the same
error is re-raised as the final event, directly after the close. -/
theorem browser_closed_and_error_rethrown
    (url : String) (inp : Network.RunInput)
    (newURL : String → String → Option JsURL) (newURL1 : String → Option JsURL)
    (durl : String) (dinp : Dom.RunInput) :
    ((Network.getAllSubResources url inp).count Event.close = 1
      ∧ ∀ e, Event.raise e ∈ Network.getAllSubResources url inp →
          (Network.body url inp).2 = some e
            ∧ Network.getAllSubResources url inp
                = (Event.launch ::
                    (Network.body url inp).1.map Event.yieldRes
                      ++ [Event.close]) ++ [Event.raise e])
    ∧ ((Dom.getAllSubResources newURL newURL1 durl dinp).count Event.close = 1
      ∧ ∀ e, Event.raise e ∈ Dom.getAllSubResources newURL newURL1 durl dinp →
          (Dom.body newURL newURL1 durl dinp).2 = some e
            ∧ Dom.getAllSubResources newURL newURL1 durl dinp
                = (Event.launch ::
                    (Dom.body newURL newURL1 durl dinp).1.map Event.yieldRes
                      ++ [Event.close]) ++ [Event.raise e]) :=
  ⟨⟨runTrace_count_close _, fun e he => runTrace_raise _ e he⟩,
   ⟨runTrace_count_close _, fun e he => runTrace_raise _ e he⟩⟩

/-- Witness for C4: a 404 navigation yields the trace launch, close, raise —
the close happens, and the caught navigation error is re-raised after it. -/
theorem browser_closed_and_error_rethrown_witness :
    (Network.getAllSubResources "http://example.com/miss"
        ⟨[], .ok (some ⟨⟨"document", false⟩, "http://example.com/miss", [], 404⟩),
         false, []⟩).count Event.close = 1
      ∧ Network.getAllSubResources "http://example.com/miss"
          ⟨[], .ok (some ⟨⟨"document", false⟩, "http://example.com/miss", [], 404⟩),
           false, []⟩
        = [Event.launch, Event.close,
           Event.raise
             (.nav "Failed to navigate to http://example.com/miss. HTTP 404")] := by
  have h := browser_closed_and_error_rethrown "http://example.com/miss"
    ⟨[], .ok (some ⟨⟨"document", false⟩, "http://example.com/miss", [], 404⟩),
     false, []⟩
    (fun _ _ => none) (fun _ => none) "" ⟨.ok none, "", ⟨[], [], [], [], [], [], [], none, []⟩⟩
  refine ⟨h.1.1, ?_⟩
  have hr := h.1.2
    (.nav "Failed to navigate to http://example.com/miss. HTTP 404")
    (by decide)
  exact hr.2.trans (by decide)

/-- C3 (amended): in both variants, the body throws the navigation error —
and yields nothing — exactly when no response was received or the final
status is not ok in puppeteer's sense (0 or 2xx; note 3xx statuses also
fail); the error message contains the target URL and, when a response
exists, ends with its HTTP status. -/
theorem nav_failure_characterization
    (url : String) (inp : Network.RunInput)
    (newURL : String → String → Option JsURL) (newURL1 : String → Option JsURL)
    (dinp : Dom.RunInput) (navResp : Option HTTPResponse)
    (hn : inp.gotoResult = .ok navResp)
    (hd : dinp.gotoResult = .ok navResp) :
    ((∃ m, Network.body url inp = ([], some (.nav m)))
        ↔ (navResp = none ∨ ∃ r, navResp = some r ∧ respOk r = false))
      ∧ ((∃ m, Dom.body newURL newURL1 url dinp = ([], some (.nav m)))
        ↔ (navResp = none ∨ ∃ r, navResp = some r ∧ respOk r = false))
      ∧ ((navResp = none ∨ ∃ r, navResp = some r ∧ respOk r = false) →
          Network.body url inp = ([], some (.nav (navErrorMsg url navResp)))
            ∧ Dom.body newURL newURL1 url dinp
                = ([], some (.nav (navErrorMsg url navResp))))
      ∧ (∃ pre post, navErrorMsg url navResp = pre ++ url ++ post)
      ∧ (∀ r, navResp = some r →
          ∃ pre, navErrorMsg url navResp = pre ++ toString r.status) := by
  by_cases hb : navResp.elim true (fun r => !respOk r) = true
  · have hfail := (navFailed_iff navResp).mp hb
    refine ⟨?_, ?_, ?_, ?_, ?_⟩
    · exact ⟨fun _ => hfail,
        fun _ => ⟨navErrorMsg url navResp, by simp [Network.body, hn, hb]⟩⟩
    · exact ⟨fun _ => hfail,
        fun _ => ⟨navErrorMsg url navResp, by simp [Dom.body, hd, hb]⟩⟩
    · exact fun _ => ⟨by simp [Network.body, hn, hb], by simp [Dom.body, hd, hb]⟩
    · exact ⟨"Failed to navigate to ", _, rfl⟩
    · rintro r rfl
      exact ⟨"Failed to navigate to " ++ url ++ ". HTTP ",
        by simp [navErrorMsg, String.append_assoc]⟩
  · have hfail := (navFailed_iff navResp).not.mp hb
    refine ⟨?_, ?_, ?_, ?_, ?_⟩
    · refine ⟨fun hm => absurd ?_ hfail, fun hf => absurd hf hfail⟩
      obtain ⟨m, hm⟩ := hm
      exfalso
      have h2 := congrArg Prod.snd hm
      simp only [Network.body, hn] at h2
      rw [Bool.not_eq_true] at hb
      simp only [hb, Bool.false_eq_true, if_false] at h2
      split at h2 <;> simp at h2
    · refine ⟨fun hm => absurd ?_ hfail, fun hf => absurd hf hfail⟩
      obtain ⟨m, hm⟩ := hm
      exfalso
      have h2 := congrArg Prod.snd hm
      simp only [Dom.body, hd] at h2
      rw [Bool.not_eq_true] at hb
      simp only [hb, Bool.false_eq_true, if_false] at h2
      exact runPasses_liftEval_no_nav _ m h2
    · exact fun hf => absurd hf hfail
    · exact ⟨"Failed to navigate to ", _, rfl⟩
    · rintro r rfl
      exact ⟨"Failed to navigate to " ++ url ++ ". HTTP ",
        by simp [navErrorMsg, String.append_assoc]⟩

/-- Witness for C3: navigating to a page answering 404 makes the run fatal
with no resources emitted, and the message carries the URL and the status. -/
theorem nav_failure_characterization_witness :
    Network.body "http://example.com/miss"
        ⟨[], .ok (some ⟨⟨"document", false⟩, "http://example.com/miss", [], 404⟩),
         false, []⟩
      = ([], some (.nav "Failed to navigate to http://example.com/miss. HTTP 404"))
      ∧ ∃ pre,
          "Failed to navigate to http://example.com/miss. HTTP 404"
            = pre ++ toString (404 : Nat) := by
  have h := nav_failure_characterization "http://example.com/miss"
    ⟨[], .ok (some ⟨⟨"document", false⟩, "http://example.com/miss", [], 404⟩),
     false, []⟩
    (fun _ _ => none) (fun _ => none)
    ⟨.ok (some ⟨⟨"document", false⟩, "http://example.com/miss", [], 404⟩),
     "http://example.com/miss", ⟨[], [], [], [], [], [], [], none, []⟩⟩
    (some ⟨⟨"document", false⟩, "http://example.com/miss", [], 404⟩) rfl rfl
  have hfail : (some ⟨⟨"document", false⟩, "http://example.com/miss", [], 404⟩ :
      Option HTTPResponse) = none
        ∨ ∃ r, (some ⟨⟨"document", false⟩, "http://example.com/miss", [], 404⟩ :
          Option HTTPResponse) = some r ∧ respOk r = false :=
    Or.inr ⟨_, rfl, by decide⟩
  refine ⟨((h.2.2.1 hfail).1).trans (by decide), ?_⟩
  obtain ⟨pre, hpre⟩ := h.2.2.2.2 _ rfl
  exact ⟨pre, (by decide : ("Failed to navigate to http://example.com/miss. HTTP 404" : String) = navErrorMsg "http://example.com/miss" (some ⟨⟨"document", false⟩, "http://example.com/miss", [], 404⟩)).trans hpre⟩

/-- Counterexample for C3 as stated: a final status of 304 — a 3xx status —
is treated as a navigation failure by the code (`response.ok()` accepts only
0 and 2xx), while the claim says only non-2xx/3xx statuses are fatal. -/
theorem nav_304_is_fatal :
    Network.body "http://example.com/cached"
        ⟨[], .ok (some ⟨⟨"document", false⟩, "http://example.com/cached", [], 304⟩),
         false, []⟩
      = ([], some (.nav "Failed to navigate to http://example.com/cached. HTTP 304"))
      ∧ (300 ≤ 304 ∧ 304 < 400) := by
  decide

/-- Invariant of the seen-set folds: starting from a state whose queue URLs
are pairwise distinct and all recorded in the seen-set, a fold whose step
either leaves the state unchanged or appends one resource with an unseen URL
while recording that URL preserves both properties, only grows the seen-set,
and appends a suffix of step-produced resources whose URLs were unseen at
entry. -/
theorem foldl_seen_invariant {α : Type} (P : Resource → Prop)
    (f : (List String × List Resource) → α → (List String × List Resource))
    (hf : ∀ st a, f st a = st ∨
      ∃ r, P r ∧ r.url ∉ st.1 ∧ f st a = (r.url :: st.1, st.2 ++ [r]))
    (xs : List α) :
    ∀ st : List String × List Resource,
      ((st.2.map Resource.url).Nodup) →
      (∀ u ∈ st.2.map Resource.url, u ∈ st.1) →
      ((((xs.foldl f st).2.map Resource.url).Nodup)
        ∧ (∀ u ∈ (xs.foldl f st).2.map Resource.url, u ∈ (xs.foldl f st).1)
        ∧ (∀ u ∈ st.1, u ∈ (xs.foldl f st).1)
        ∧ ∃ new, (xs.foldl f st).2 = st.2 ++ new
            ∧ ∀ r ∈ new, P r ∧ r.url ∉ st.1) := by
  induction xs with
  | nil =>
      intro st h1 h2
      exact ⟨h1, h2, fun u hu => hu, [], by simp, by simp⟩
  | cons a as ih =>
      intro st h1 h2
      rcases hf st a with heq | ⟨r, hP, hnotin, heq⟩
      · rw [List.foldl_cons, heq]
        exact ih st h1 h2
      · rw [List.foldl_cons, heq]
        have h1a : ((st.2 ++ [r]).map Resource.url).Nodup := by
          rw [List.map_append]
          refine h1.append (List.nodup_singleton _) ?_
          intro u hu hu2
          simp only [List.map_cons, List.map_nil, List.mem_singleton] at hu2
          subst hu2
          exact hnotin (h2 _ hu)
        have h2a : ∀ u ∈ (st.2 ++ [r]).map Resource.url, u ∈ r.url :: st.1 := by
          intro u hu
          rw [List.map_append] at hu
          rcases List.mem_append.mp hu with hu | hu
          · exact List.mem_cons_of_mem _ (h2 u hu)
          · simp only [List.map_cons, List.map_nil, List.mem_singleton] at hu
            subst hu
            exact List.mem_cons_self _ _
        obtain ⟨ha, hb, hc, new, hnew, hprop⟩ :=
          ih (r.url :: st.1, st.2 ++ [r]) h1a h2a
        refine ⟨ha, hb, ?_, r :: new, ?_, ?_⟩
        · exact fun u hu => hc u (List.mem_cons_of_mem _ hu)
        · rw [hnew]
          simp
        · intro r₂ hr₂
          rcases List.mem_cons.mp hr₂ with rfl | hr₂
          · exact ⟨hP, hnotin⟩
          · obtain ⟨hp₂, hn₂⟩ := hprop r₂ hr₂
            exact ⟨hp₂, fun hmem => hn₂ (List.mem_cons_of_mem _ hmem)⟩

/-- The response handler is a step of the required shape: it skips the
response or appends one freshly-seen classified resource. -/
theorem handleResponse_step (mainFrameUrl : String) (P : Resource → Prop)
    (hP : ∀ response t, mapResourceType response mainFrameUrl = some t →
      P ⟨t, response.url⟩) :
    ∀ st response, Network.handleResponse mainFrameUrl st response = st ∨
      ∃ r, P r ∧ r.url ∉ st.1 ∧
        Network.handleResponse mainFrameUrl st response
          = (r.url :: st.1, st.2 ++ [r]) := by
  intro st response
  unfold Network.handleResponse
  cases hmap : mapResourceType response mainFrameUrl with
  | none => exact Or.inl rfl
  | some t =>
      by_cases hmem : response.url ∈ st.1
      · exact Or.inl (by simp [hmem])
      · exact Or.inr ⟨⟨t, response.url⟩, hP response t hmap, hmem, by simp [hmem]⟩

/-- Facts about the handler queue of one run: its URLs are pairwise
distinct and recorded in the seen-set, and every queued resource is
classified — hence never `link`-typed and never a `data:` URL. -/
theorem collectQueue_facts (url : String) (responses : List HTTPResponse) :
    (((Network.collectQueue url responses).2.map Resource.url).Nodup)
      ∧ (∀ u ∈ (Network.collectQueue url responses).2.map Resource.url,
          u ∈ (Network.collectQueue url responses).1)
      ∧ (∀ r ∈ (Network.collectQueue url responses).2,
          r.type ≠ ResourceType.link ∧ strStartsWith r.url "data:" = false) := by
  have hstep := handleResponse_step url
    (fun r => r.type ≠ ResourceType.link ∧ strStartsWith r.url "data:" = false)
    (fun response t hmap =>
      ⟨fun h => mapResourceType_ne_link response url (h ▸ hmap),
       mapResourceType_not_data response url t hmap⟩)
  obtain ⟨h1, h2, _, new, hnew, hprop⟩ :=
    foldl_seen_invariant _ _ hstep responses ([], []) (by simp) (by simp)
  refine ⟨h1, h2, ?_⟩
  intro r hr
  rw [show Network.collectQueue url responses
      = responses.foldl (Network.handleResponse url) ([], []) from rfl, hnew] at hr
  exact (hprop r (by simpa using hr)).1

/-- Facts about the links phase: the emitted link resources have pairwise
distinct URLs, are all `link`-typed, and none of their URLs was already in
the seen-set. -/
theorem emitLinks_facts (seen : List String) (anchors : List String) :
    ((((Network.emitLinks seen anchors).2).map Resource.url).Nodup)
      ∧ (∀ r ∈ (Network.emitLinks seen anchors).2,
          r.type = ResourceType.link ∧ r.url ∉ seen) := by
  have hstep : ∀ (st : List String × List Resource) (u : String),
      (if u ∈ st.1 then st
        else (u :: st.1, st.2 ++ [⟨ResourceType.link, u⟩])) = st ∨
      ∃ r, r.type = ResourceType.link ∧ r.url ∉ st.1 ∧
        (if u ∈ st.1 then st
          else (u :: st.1, st.2 ++ [⟨ResourceType.link, u⟩]))
          = (r.url :: st.1, st.2 ++ [r]) := by
    intro st u
    by_cases hmem : u ∈ st.1
    · exact Or.inl (by simp [hmem])
    · exact Or.inr ⟨⟨ResourceType.link, u⟩, rfl, hmem, by simp [hmem]⟩
  obtain ⟨h1, _, _, new, hnew, hprop⟩ :=
    foldl_seen_invariant (fun r => r.type = ResourceType.link) _ hstep anchors
      (seen, []) (by simp) (by simp)
  refine ⟨h1, ?_⟩
  intro r hr
  rw [show Network.emitLinks seen anchors
      = anchors.foldl
          (fun st u =>
            if u ∈ st.1 then st
            else (u :: st.1, st.2 ++ [⟨ResourceType.link, u⟩])) (seen, [])
      from rfl, hnew] at hr
  exact hprop r (by simpa using hr)

/-- C1 (amended): in the network-observed variant, no two emitted resources
share a URL — every candidate, network-observed or link, is checked against
the per-run seen-set and only first occurrences are emitted. -/
theorem network_run_urls_nodup (url : String) (inp : Network.RunInput) :
    (((Network.body url inp).1).map Resource.url).Nodup := by
  cases hg : inp.gotoResult with
  | error e => simp [Network.body, hg]
  | ok navResp =>
      by_cases hfail : navResp.elim true (fun r => !respOk r) = true
      · simp [Network.body, hg, hfail]
      · rw [Bool.not_eq_true] at hfail
        obtain ⟨hqnodup, hqseen, _⟩ := collectQueue_facts url inp.responses
        by_cases hl : inp.links = true
        · have hbody : (Network.body url inp).1
              = (Network.collectQueue url inp.responses).2
                ++ (Network.emitLinks (Network.collectQueue url inp.responses).1
                    inp.anchors).2 := by
            simp [Network.body, hg, hfail, hl]
          rw [hbody, List.map_append]
          obtain ⟨hlnodup, hlP⟩ :=
            emitLinks_facts (Network.collectQueue url inp.responses).1 inp.anchors
          refine hqnodup.append hlnodup ?_
          intro u hu hu₂
          obtain ⟨r, hr, rfl⟩ := List.mem_map.mp hu₂
          exact (hlP r hr).2 (hqseen _ hu)
        · have hbody : (Network.body url inp).1
              = (Network.collectQueue url inp.responses).2 := by
            simp [Network.body, hg, hfail, hl]
          rw [hbody]
          exact hqnodup

/-- Counterexample for C1 as stated ("either variant"): the DOM-query
variant has no seen-set, so a page with two identical script sources emits
two Resources with the same URL. -/
theorem dom_run_emits_duplicate :
    (Dom.body (fun s b => some ⟨b ++ s, "http:"⟩) (fun s => some ⟨s, "http:"⟩)
        "http://example.com/"
        ⟨.ok (some ⟨⟨"document", false⟩, "http://example.com/", [], 200⟩),
         "http://example.com/",
         ⟨[], [], ["http://example.com/app.js", "http://example.com/app.js"],
          [], [], [], [], none, []⟩⟩).1
      = [⟨ResourceType.script, "http://example.com/app.js"⟩,
         ⟨ResourceType.script, "http://example.com/app.js"⟩]
      ∧ ¬ (((Dom.body (fun s b => some ⟨b ++ s, "http:"⟩)
          (fun s => some ⟨s, "http:"⟩) "http://example.com/"
          ⟨.ok (some ⟨⟨"document", false⟩, "http://example.com/", [], 200⟩),
           "http://example.com/",
           ⟨[], [], ["http://example.com/app.js", "http://example.com/app.js"],
            [], [], [], [], none, []⟩⟩).1).map Resource.url).Nodup := by
  decide

/-- C2 (amended): in the network-observed variant, no resource produced from
an observed network response carries a `data:` URL (`mapResourceType` drops
them before they reach the queue). -/
theorem network_queue_no_data_urls (url : String) (responses : List HTTPResponse) :
    ∀ r ∈ (Network.collectQueue url responses).2,
      strStartsWith r.url "data:" = false :=
  fun r hr => ((collectQueue_facts url responses).2.2 r hr).2

/-- Witness for C2: a queued script resource has a non-`data:` URL. -/
theorem network_queue_no_data_urls_witness :
    strStartsWith
      (Resource.url ⟨ResourceType.script, "http://example.com/app.js"⟩)
      "data:" = false :=
  network_queue_no_data_urls "http://example.com/"
    [⟨⟨"script", false⟩, "http://example.com/app.js", [], 200⟩]
    ⟨ResourceType.script, "http://example.com/app.js"⟩ (by decide)

/-- Counterexample for C2 as stated ("either variant"): the DOM-query
variant's media pass emits an `img` element whose resolved `src` is a
`data:` URL — nothing filters it. -/
theorem dom_run_emits_data_url :
    (Dom.body (fun s b => some ⟨b ++ s, "http:"⟩) (fun s => some ⟨s, "http:"⟩)
        "http://example.com/"
        ⟨.ok (some ⟨⟨"document", false⟩, "http://example.com/", [], 200⟩),
         "http://example.com/",
         ⟨[], [], [],
          [⟨Dom.Tag.img, some "data:image/png;base64,AAAA", Dom.Tag.other⟩],
          [], [], [], none, []⟩⟩).1
      = [⟨ResourceType.image, "data:image/png;base64,AAAA"⟩]
      ∧ strStartsWith "data:image/png;base64,AAAA" "data:" = true := by
  decide

/-- C5: in the network-observed variant, when `links` is false or absent no
emitted resource is `link`-typed; when `links` is true the emission is a
block of non-`link` resources followed by a block of `link` resources, and
no link whose target is already in the seen-set is re-emitted. -/
theorem links_option_behavior (url : String) (inp : Network.RunInput) :
    (inp.links = false →
        ∀ r ∈ (Network.body url inp).1, r.type ≠ ResourceType.link)
      ∧ (inp.links = true →
          ∃ pre post, (Network.body url inp).1 = pre ++ post
            ∧ (∀ r ∈ pre, r.type ≠ ResourceType.link)
            ∧ (∀ r ∈ post, r.type = ResourceType.link)
            ∧ (∀ r ∈ post,
                r.url ∉ (Network.collectQueue url inp.responses).1)) := by
  cases hg : inp.gotoResult with
  | error e =>
      constructor
      · intro _ r hr
        simp [Network.body, hg] at hr
      · intro _
        exact ⟨[], [], by simp [Network.body, hg], by simp, by simp, by simp⟩
  | ok navResp =>
      by_cases hfail : navResp.elim true (fun r => !respOk r) = true
      · constructor
        · intro _ r hr
          simp [Network.body, hg, hfail] at hr
        · intro _
          exact ⟨[], [], by simp [Network.body, hg, hfail], by simp, by simp,
            by simp⟩
      · rw [Bool.not_eq_true] at hfail
        obtain ⟨_, _, hqP⟩ := collectQueue_facts url inp.responses
        constructor
        · intro hl r hr
          have hbody : (Network.body url inp).1
              = (Network.collectQueue url inp.responses).2 := by
            simp [Network.body, hg, hfail, hl]
          rw [hbody] at hr
          exact (hqP r hr).1
        · intro hl
          have hbody : (Network.body url inp).1
              = (Network.collectQueue url inp.responses).2
                ++ (Network.emitLinks (Network.collectQueue url inp.responses).1
                    inp.anchors).2 := by
            simp [Network.body, hg, hfail, hl]
          obtain ⟨_, hlP⟩ :=
            emitLinks_facts (Network.collectQueue url inp.responses).1 inp.anchors
          exact ⟨_, _, hbody, fun r hr => (hqP r hr).1,
            fun r hr => (hlP r hr).1, fun r hr => (hlP r hr).2⟩

/-- Witness for C5: with `links` enabled, a run with one observed script
response and two anchors — one of them the script's own URL — emits the
script block first, then only the fresh link. -/
theorem links_option_behavior_witness :
    ∃ pre post,
      (Network.body "http://example.com/"
          ⟨[⟨⟨"script", false⟩, "http://example.com/app.js", [], 200⟩],
           .ok (some ⟨⟨"document", false⟩, "http://example.com/", [], 200⟩),
           true, ["http://example.com/app.js", "http://other.example/"]⟩).1
        = pre ++ post
        ∧ (∀ r ∈ pre, r.type ≠ ResourceType.link)
        ∧ (∀ r ∈ post, r.type = ResourceType.link)
        ∧ (∀ r ∈ post,
            r.url ∉ (Network.collectQueue "http://example.com/"
              [⟨⟨"script", false⟩, "http://example.com/app.js", [], 200⟩]).1) :=
  (links_option_behavior "http://example.com/"
      ⟨[⟨⟨"script", false⟩, "http://example.com/app.js", [], 200⟩],
       .ok (some ⟨⟨"document", false⟩, "http://example.com/", [], 200⟩),
       true, ["http://example.com/app.js", "http://other.example/"]⟩).2 rfl

/-- A per-item contribution of `ok []` drops out of a `collectE` run. -/
theorem collectE_cons_okNil {α β : Type} (f : α → Except String (List β))
    (a : α) (l : List α) (h : f a = .ok []) :
    Dom.collectE f (a :: l) = Dom.collectE f l := by
  cases hl : Dom.collectE f l <;>
    simp [Dom.collectE, h, hl, except_ok_bind, except_error_bind,
      except_pure_eq]

/-- `collectE` is congruent in its tail. -/
theorem collectE_cons_congr {α β : Type} (f : α → Except String (List β))
    (a : α) {l₁ l₂ : List α}
    (h : Dom.collectE f l₁ = Dom.collectE f l₂) :
    Dom.collectE f (a :: l₁) = Dom.collectE f (a :: l₂) := by
  simp only [Dom.collectE, h]

/-- A per-sheet collection whose contribution is `ok []` on every
inaccessible stylesheet only depends on the accessible stylesheets, and
yields `ok []` when none is accessible. -/
theorem collectE_sheets_filter {β : Type}
    (f : StyleSheet → Except String (List β))
    (hf : ∀ s, s.accessible = false → f s = .ok [])
    (sheets : List StyleSheet) :
    Dom.collectE f sheets
        = Dom.collectE f (sheets.filter (fun s => s.accessible))
      ∧ ((∀ s ∈ sheets, s.accessible = false) →
          Dom.collectE f sheets = .ok []) := by
  induction sheets with
  | nil => exact ⟨rfl, fun _ => rfl⟩
  | cons s rest ih =>
      cases hacc : s.accessible with
      | false =>
          have hstep := collectE_cons_okNil f s rest (hf s hacc)
          refine ⟨?_, ?_⟩
          · rw [hstep, List.filter_cons_of_neg (by simp [hacc])]
            exact ih.1
          · intro hall
            rw [hstep]
            exact ih.2 (fun s₂ hs₂ => hall s₂ (List.mem_cons_of_mem _ hs₂))
      | true =>
          refine ⟨?_, ?_⟩
          · rw [List.filter_cons_of_pos (by simp [hacc])]
            exact collectE_cons_congr f s ih.1
          · intro hall
            exact absurd (hall s (List.mem_cons_self _ _)) (by simp [hacc])

/-- C9: in the DOM-query variant, every stylesheet whose rules cannot be
read (cross-origin restriction) is silently skipped by each of the three
stylesheet-reading passes — `@import`, background-image/content, and
`@font-face` — contributing no candidates and never failing the run: each
pass equals itself on the accessible stylesheets alone, and succeeds with no
output when no stylesheet is accessible. -/
theorem inaccessible_stylesheets_skipped
    (newURL : String → String → Option JsURL) (pageURL : String)
    (sheets : List StyleSheet) :
    (Dom.getImportedStyleSheets newURL pageURL sheets
        = Dom.getImportedStyleSheets newURL pageURL
            (sheets.filter (fun s => s.accessible)))
      ∧ (Dom.getStyleSheetImages newURL pageURL sheets
          = Dom.getStyleSheetImages newURL pageURL
              (sheets.filter (fun s => s.accessible)))
      ∧ (Dom.getFonts newURL pageURL sheets
          = Dom.getFonts newURL pageURL (sheets.filter (fun s => s.accessible)))
      ∧ ((∀ s ∈ sheets, s.accessible = false) →
          Dom.getImportedStyleSheets newURL pageURL sheets = .ok []
            ∧ Dom.getStyleSheetImages newURL pageURL sheets = .ok []
            ∧ Dom.getFonts newURL pageURL sheets = .ok []) := by
  have himp := collectE_sheets_filter
    (fun sheet =>
      if sheet.accessible then
        Dom.collectE
          (fun rule =>
            match rule with
            | .importRule href =>
                match newURL href (sheet.baseURL pageURL) with
                | some u =>
                    .ok [(⟨ResourceType.stylesheet, u.href⟩ : Resource)]
                | none => .error "Failed to construct URL"
            | _ => .ok ([] : List Resource))
          sheet.rules
      else .ok [])
    (fun s hs => by simp [hs]) sheets
  have himg := collectE_sheets_filter
    (fun sheet =>
      if sheet.accessible then
        Dom.collectE (Dom.styleRuleImageUrls newURL (sheet.baseURL pageURL))
          sheet.rules
      else .ok [])
    (fun s hs => by simp [hs]) sheets
  have hfont := collectE_sheets_filter
    (fun sheet =>
      if sheet.accessible then
        Dom.collectE (Dom.fontFaceUrls newURL (sheet.baseURL pageURL))
          sheet.rules
      else .ok [])
    (fun s hs => by simp [hs]) sheets
  refine ⟨himp.1, ?_, ?_, fun hall => ⟨himp.2 hall, ?_, ?_⟩⟩
  · exact congrArg
      (fun x : Except String (List String) =>
        x >>= fun urls =>
          pure (urls.map (fun url => (⟨ResourceType.image, url⟩ : Resource))))
      himg.1
  · exact congrArg
      (fun x : Except String (List String) =>
        x >>= fun urls =>
          pure (urls.map (fun url => (⟨ResourceType.font, url⟩ : Resource))))
      hfont.1
  · exact (congrArg
      (fun x : Except String (List String) =>
        x >>= fun urls =>
          pure (urls.map (fun url => (⟨ResourceType.image, url⟩ : Resource))))
      (himg.2 hall)).trans rfl
  · exact (congrArg
      (fun x : Except String (List String) =>
        x >>= fun urls =>
          pure (urls.map (fun url => (⟨ResourceType.font, url⟩ : Resource))))
      (hfont.2 hall)).trans rfl

/-- Witness for C9: a single cross-origin stylesheet — even one full of
`@import`, background-image and `@font-face` rules — contributes nothing to
any of the three passes, and the run does not fail. -/
theorem inaccessible_stylesheets_skipped_witness :
    Dom.getImportedStyleSheets (fun s b => some ⟨b ++ s, "http:"⟩)
        "http://example.com/"
        [⟨"http://cdn.example/style.css", false,
          [CSSRule.importRule "more.css",
           CSSRule.styleRule "url(\"bg.png\")" "",
           CSSRule.fontFaceRule "url(\"f.woff\")"]⟩] = .ok []
      ∧ Dom.getStyleSheetImages (fun s b => some ⟨b ++ s, "http:"⟩)
          "http://example.com/"
          [⟨"http://cdn.example/style.css", false,
            [CSSRule.importRule "more.css",
             CSSRule.styleRule "url(\"bg.png\")" "",
             CSSRule.fontFaceRule "url(\"f.woff\")"]⟩] = .ok []
      ∧ Dom.getFonts (fun s b => some ⟨b ++ s, "http:"⟩)
          "http://example.com/"
          [⟨"http://cdn.example/style.css", false,
            [CSSRule.importRule "more.css",
             CSSRule.styleRule "url(\"bg.png\")" "",
             CSSRule.fontFaceRule "url(\"f.woff\")"]⟩] = .ok [] :=
  (inaccessible_stylesheets_skipped (fun s b => some ⟨b ++ s, "http:"⟩)
      "http://example.com/"
      [⟨"http://cdn.example/style.css", false,
        [CSSRule.importRule "more.css",
         CSSRule.styleRule "url(\"bg.png\")" "",
         CSSRule.fontFaceRule "url(\"f.woff\")"]⟩]).2.2.2
    (by decide)

end Subresources
